import Mathlib

/-
Verification development for the adxl343 accelerometer driver crate.

The Rust sources are shallowly embedded as follows:
  * the configuration enums and the ADXL343Settings struct
    (src/utils/settings.rs, src/registers/accel_configs.rs) become Lean
    inductives and a structure;
  * the modular_bitfield register packing (fields packed from the least
    significant bit upwards, skipped fields zero) becomes explicit
    shift-and-or byte functions, corroborated by the crate's own unit
    tests (accel_configs.rs, mod tests);
  * machine integers are Nat / Int with explicit mod 2^16 where u16
    wrap-around matters; the i2c bus (the embedded-hal I2c capability)
    becomes a deterministic response oracle plus a ghost transaction log;
  * f32 arithmetic in g_per_lsb / axis_value is modelled in Rat: every
    value involved (1/256, 1/128, 1/64, 1/32 and products with 16-bit
    integers) is an exactly representable dyadic rational, so f32
    computes it exactly.
-/

namespace adxl343

/-- Output data rate codes for the BW_RATE register, bits 0 to 3
(accel_configs.rs, enum OutputDataRate). -/
inductive OutputDataRate
  | Hz3200 | Hz1600 | Hz800 | Hz400 | Hz200 | Hz100 | Hz50 | Hz25
  | Hz12_5 | Hz6_25 | Hz3_13 | Hz1_56 | Hz0_78 | Hz0_39 | Hz0_20 | Hz0_10
  deriving DecidableEq

/-- Discriminant values of the Rust OutputDataRate enum. -/
def OutputDataRate.bits : OutputDataRate → Nat
  | .Hz3200 => 0b1111
  | .Hz1600 => 0b1110
  | .Hz800  => 0b1101
  | .Hz400  => 0b1100
  | .Hz200  => 0b1011
  | .Hz100  => 0b1010
  | .Hz50   => 0b1001
  | .Hz25   => 0b1000
  | .Hz12_5 => 0b0111
  | .Hz6_25 => 0b0110
  | .Hz3_13 => 0b0101
  | .Hz1_56 => 0b0100
  | .Hz0_78 => 0b0011
  | .Hz0_39 => 0b0010
  | .Hz0_20 => 0b0001
  | .Hz0_10 => 0b0000

/-- Measurement range (accel_configs.rs, enum AccelRange). -/
inductive AccelRange
  | _2g | _4g | _8g | _16g
  deriving DecidableEq

/-- Discriminant values of the Rust AccelRange enum. -/
def AccelRange.bits : AccelRange → Nat
  | ._2g => 0b00
  | ._4g => 0b01
  | ._8g => 0b10
  | ._16g => 0b11

/-- Justification of raw readings (accel_configs.rs, enum Alignment):
right = 0b0 is the Rust default, left = 0b1. -/
inductive Alignment
  | right | left
  deriving DecidableEq

/-- Discriminant values of the Rust Alignment enum. -/
def Alignment.bits : Alignment → Nat
  | .right => 0b0
  | .left => 0b1

/-- Resolution selector (accel_configs.rs, enum FullRes). -/
inductive FullRes
  | _10bit_res | full_res
  deriving DecidableEq

/-- Discriminant values of the Rust FullRes enum. -/
def FullRes.bits : FullRes → Nat
  | ._10bit_res => 0b0
  | .full_res => 0b1

/-- Register address constants (registers/mod.rs). -/
def DEVID_ADDR : Nat := 0x00

def BW_RATE_ADDR : Nat := 0x2C

def POWER_CTL_ADDR : Nat := 0x2D

def DATA_FORMAT_ADDR : Nat := 0x31

def DATAX0_ADDR : Nat := 0x32

def REGISTER_SIZE : Nat := 8

def DEVICE_ID : Nat := 0xE5

/-- Modelled from the spec: DEVID_REG_VALUE is imported by
adxl343_interface.rs from the registers module, but its definition is not
among the provided files; the spec fixes the device-ID constant at 0xE5,
matching the DEVICE_ID constant of registers/mod.rs. -/
def DEVID_REG_VALUE : Nat := DEVICE_ID

/-- Modelled from the spec: ADXL343_ADDR, the fixed 7-bit i2c device
address, is imported by adxl343_interface.rs but not defined in the
provided files; the integration tests name 0x53 (the ADXL343 i2c address
with ALT low), and the spec calls it a fixed protocol constant. -/
def ADXL343_ADDR : Nat := 0x53

/-- BW_RATE register byte (accel_configs.rs, struct BW_RATE): odr in bits
0 to 3, low_power in bit 4, bits 5 to 7 skipped and zero. -/
def BW_RATE_bytes (odr : OutputDataRate) (low_power : Nat) : Nat :=
  odr.bits ||| (low_power <<< 4)

/-- DATA_FORMAT register byte (accel_configs.rs, struct DATA_FORMAT):
range in bits 0 to 1, justisfy in bit 2, full_res in bit 3, the
remaining fields skipped and zero. -/
def DATA_FORMAT_bytes (range : AccelRange) (justisfy : Alignment) (res : FullRes) : Nat :=
  range.bits ||| (justisfy.bits <<< 2) ||| (res.bits <<< 3)

/-- POWER_CTL register byte with the given measure bit
(accel_configs.rs, struct POWER_CTL): the 2-bit wakeup field and the
sleep bit occupy bits 0 to 2 and are skipped (zero), measure is bit 3,
the remaining fields are skipped and zero.  This is the value of
POWER_CTL::default().with_measure(m).into_bytes()[0]. -/
def POWER_CTL_bytes (measure : Nat) : Nat :=
  measure <<< 3

/-- Driver settings (src/utils/settings.rs, struct ADXL343Settings). -/
structure ADXL343Settings where
  odr : OutputDataRate
  range : AccelRange
  justification : Alignment
  resolution : FullRes
  low_power_mode : Bool
  measurement_mode : Bool
  deriving DecidableEq

/-- The derived Default of ADXL343Settings: each field takes its Rust
default (Hz100 odr, 2g range, right justification, 10-bit resolution,
both flags false). -/
def ADXL343Settings.default : ADXL343Settings :=
  { odr := .Hz100
    range := ._2g
    justification := .right
    resolution := ._10bit_res
    low_power_mode := false
    measurement_mode := false }

/-- settings.rs, fn DATA_FORMAT_reg_value. -/
def ADXL343Settings.DATA_FORMAT_reg_value (s : ADXL343Settings) : Nat :=
  DATA_FORMAT_bytes s.range s.justification s.resolution

/-- settings.rs, fn BW_RATE_reg_value. -/
def ADXL343Settings.BW_RATE_reg_value (s : ADXL343Settings) : Nat :=
  BW_RATE_bytes s.odr (if s.low_power_mode then 1 else 0)

/-- settings.rs, fn resolution_to_bits. -/
def ADXL343Settings.resolution_to_bits (s : ADXL343Settings) : Nat :=
  match s.resolution, s.range with
  | FullRes._10bit_res, _ => 10
  | FullRes.full_res, AccelRange._2g => 10
  | FullRes.full_res, AccelRange._4g => 11
  | FullRes.full_res, AccelRange._8g => 12
  | FullRes.full_res, AccelRange._16g => 13

/-- settings.rs, fn g_per_lsb; f32 modelled exactly in Rat (every value
is a dyadic rational that f32 represents exactly). -/
def ADXL343Settings.g_per_lsb (s : ADXL343Settings) : ℚ :=
  match s.resolution, s.range with
  | FullRes.full_res, _ => 1/256
  | FullRes._10bit_res, AccelRange._2g => 1/256
  | FullRes._10bit_res, AccelRange._4g => 1/128
  | FullRes._10bit_res, AccelRange._8g => 1/64
  | FullRes._10bit_res, AccelRange._16g => 1/32

/-- settings.rs, fn get_justification. -/
def ADXL343Settings.get_justification (s : ADXL343Settings) : Alignment :=
  s.justification

/-- settings.rs, fn in_measurement_mode. -/
def ADXL343Settings.in_measurement_mode (s : ADXL343Settings) : Bool :=
  s.measurement_mode

/-- settings.rs, fn toggle_measurement_mode: measurement_mode xor true. -/
def ADXL343Settings.toggle_measurement_mode (s : ADXL343Settings) : ADXL343Settings :=
  { s with measurement_mode := xor s.measurement_mode true }

/-- A bus transaction, as issued by the driver: either a register write
(device address and payload bytes) or a write-then-read (device address,
written bytes, length of the read buffer). -/
inductive BusOp
  | write (addr : Nat) (bytes : List Nat)
  | writeRead (addr : Nat) (bytes : List Nat) (len : Nat)
  deriving DecidableEq

/-- Deterministic model of an embedded-hal I2c implementation: the
response to each transaction is an arbitrary function of the transaction
history (so any deterministic bus behaviour, including failures, is an
instance), and a ghost log records every transaction in order. -/
structure MockI2c (ε : Type) where
  onWrite : List BusOp → Nat → List Nat → Except ε Unit
  onWriteRead : List BusOp → Nat → List Nat → Nat → Except ε (List Nat)
  log : List BusOp

/-- The blocking write primitive: records the transaction and returns
the modelled response. -/
def MockI2c.write {ε : Type} (b : MockI2c ε) (addr : Nat) (bytes : List Nat) :
    Except ε Unit × MockI2c ε :=
  (b.onWrite b.log addr bytes, { b with log := b.log ++ [BusOp.write addr bytes] })

/-- The blocking write-then-read primitive: records the transaction and
returns the modelled response (the bytes read into the caller buffer of
the given length). -/
def MockI2c.write_read {ε : Type} (b : MockI2c ε) (addr : Nat) (bytes : List Nat) (len : Nat) :
    Except ε (List Nat) × MockI2c ε :=
  (b.onWriteRead b.log addr bytes len, { b with log := b.log ++ [BusOp.writeRead addr bytes len] })

/-- adxl343_interface.rs, enum ADXL343Error. -/
inductive ADXL343Error (ε : Type)
  | Interface (e : ε)
  | DeviceIdMismatch
  | MeasurementModeBeforeConfig
  deriving DecidableEq

/-- adxl343_interface.rs, struct ADXL343Interface: owns the bus handle
and a settings snapshot. -/
structure ADXL343Interface (ε : Type) where
  i2c : MockI2c ε
  settings : ADXL343Settings

/-- adxl343_interface.rs, fn new: uninitialized device object with
default settings. -/
def ADXL343Interface.new {ε : Type} (i2c : MockI2c ε) : ADXL343Interface ε :=
  { i2c := i2c, settings := ADXL343Settings.default }

/-- adxl343_interface.rs, fn with_settings: rejects settings already in
measurement mode, otherwise replaces the snapshot; no bus access. -/
def ADXL343Interface.with_settings {ε : Type} (self : ADXL343Interface ε)
    (settings : ADXL343Settings) :
    Except (ADXL343Error ε) Unit × ADXL343Interface ε :=
  if settings.in_measurement_mode then
    (Except.error ADXL343Error.MeasurementModeBeforeConfig, self)
  else
    (Except.ok (), { self with settings := settings })

/-- adxl343_interface.rs, fn write_to_register: one bus write of
[register address, value]; a bus error is wrapped in
ADXL343Error.Interface (the From impl) and returned. -/
def ADXL343Interface.write_to_register {ε : Type} (self : ADXL343Interface ε)
    (reg_address : Nat) (value : Nat) :
    Except (ADXL343Error ε) Unit × ADXL343Interface ε :=
  match self.i2c.write ADXL343_ADDR [reg_address, value] with
  | (Except.ok _, b) => (Except.ok (), { self with i2c := b })
  | (Except.error e, b) => (Except.error (ADXL343Error.Interface e), { self with i2c := b })

/-- adxl343_interface.rs, fn read_register: one write-read transaction
with a 1-byte buffer; returns the byte read. -/
def ADXL343Interface.read_register {ε : Type} (self : ADXL343Interface ε)
    (reg_address : Nat) :
    Except (ADXL343Error ε) Nat × ADXL343Interface ε :=
  match self.i2c.write_read ADXL343_ADDR [reg_address] 1 with
  | (Except.ok buf, b) => (Except.ok (buf.headD 0), { self with i2c := b })
  | (Except.error e, b) => (Except.error (ADXL343Error.Interface e), { self with i2c := b })

/-- adxl343_interface.rs, fn confirm_device: reads DEVID_ADDR and
matches the returned byte against the DEVID_REG_VALUE constant. -/
def ADXL343Interface.confirm_device {ε : Type} (self : ADXL343Interface ε) :
    Except (ADXL343Error ε) Unit × ADXL343Interface ε :=
  match self.read_register DEVID_ADDR with
  | (Except.ok v, self1) =>
      if v = DEVID_REG_VALUE then (Except.ok (), self1)
      else (Except.error ADXL343Error.DeviceIdMismatch, self1)
  | (Except.error e, self1) => (Except.error e, self1)

/-- adxl343_interface.rs, fn begin_measurements: if not already in
measurement mode, first toggles the in-memory flag, then writes
POWER_CTL with only the measure bit set. -/
def ADXL343Interface.begin_measurements {ε : Type} (self : ADXL343Interface ε) :
    Except (ADXL343Error ε) Unit × ADXL343Interface ε :=
  if !self.settings.in_measurement_mode then
    ADXL343Interface.write_to_register
      { self with settings := self.settings.toggle_measurement_mode }
      POWER_CTL_ADDR (POWER_CTL_bytes 0x1)
  else
    (Except.ok (), self)

/-- adxl343_interface.rs, fn turn_off_measurements: if in measurement
mode, first toggles the in-memory flag, then writes POWER_CTL with the
measure bit clear. -/
def ADXL343Interface.turn_off_measurements {ε : Type} (self : ADXL343Interface ε) :
    Except (ADXL343Error ε) Unit × ADXL343Interface ε :=
  if self.settings.in_measurement_mode then
    ADXL343Interface.write_to_register
      { self with settings := self.settings.toggle_measurement_mode }
      POWER_CTL_ADDR (POWER_CTL_bytes 0x0)
  else
    (Except.ok (), self)

/-- adxl343_interface.rs, fn destroy: attempts to turn measurements off,
discards the Result of that attempt, and returns the bus handle and the
settings. -/
def ADXL343Interface.destroy {ε : Type} (self : ADXL343Interface ε) :
    MockI2c ε × ADXL343Settings :=
  match self.turn_off_measurements with
  | (_, self1) => (self1.i2c, self1.settings)

/-- adxl343_interface.rs, fn init: writes the BW_RATE byte to BW_RATE
then the DATA_FORMAT byte to DATA_FORMAT, in that order, returning early
with the wrapped bus error if either write fails; never touches
POWER_CTL. -/
def ADXL343Interface.init {ε : Type} (self : ADXL343Interface ε) :
    Except (ADXL343Error ε) Unit × ADXL343Interface ε :=
  match self.write_to_register BW_RATE_ADDR self.settings.BW_RATE_reg_value with
  | (Except.error e, self1) => (Except.error e, self1)
  | (Except.ok _, self1) =>
      match self1.write_to_register DATA_FORMAT_ADDR self1.settings.DATA_FORMAT_reg_value with
      | (Except.error e, self2) => (Except.error e, self2)
      | (Except.ok _, self2) => (Except.ok (), self2)

/-- adxl343_interface.rs, fn read_full_sample: one burst write-read of a
6-byte buffer starting at DATAX0.  The Rust buffer is [0u8; 6] filled by
the bus, so each oracle byte is reduced to u8 and absent bytes keep the
zero initialization. -/
def ADXL343Interface.read_full_sample {ε : Type} (self : ADXL343Interface ε) :
    Except (ADXL343Error ε) (List (Fin 256)) × ADXL343Interface ε :=
  match self.i2c.write_read ADXL343_ADDR [DATAX0_ADDR] 6 with
  | (Except.ok l, b) =>
      (Except.ok ((List.range 6).map fun i => (⟨l.getD i 0 % 256, by omega⟩ : Fin 256)),
       { self with i2c := b })
  | (Except.error e, b) => (Except.error (ADXL343Error.Interface e), { self with i2c := b })

/-- Two-s complement reinterpretation of a 16-bit word as i16 (the Rust
cast axis_value as i16). -/
def toI16 (w : Nat) : Int :=
  if w % 65536 < 32768 then ((w % 65536 : Nat) : Int)
  else ((w % 65536 : Nat) : Int) - 65536

/-- adxl343_interface.rs, fn axis_value_raw, translated line by line:
combine the byte pair into a u16 by shift-and-or, compute the shift from
the resolution, left-shift by 6 (with u16 wrap-around, hence mod 2^16)
exactly when the justification is right, reinterpret as i16 and
arithmetic-right-shift (floor division by a power of two).  The Rust
function takes a mutable receiver but only reads the settings, so the
receiver is returned unchanged. -/
def ADXL343Interface.axis_value_raw {ε : Type} (self : ADXL343Interface ε)
    (accel_data : Fin 256 × Fin 256) : Int × ADXL343Interface ε :=
  let axis_value : Nat := (accel_data.2.val <<< REGISTER_SIZE) ||| accel_data.1.val
  let shift : Nat := 16 - self.settings.resolution_to_bits
  let axis_value : Nat :=
    if self.settings.get_justification = Alignment.right then
      (axis_value <<< 6) % 65536
    else axis_value
  (Int.fdiv (toI16 axis_value) (2 ^ shift), self)

/-- adxl343_interface.rs, fn axis_value: raw reading times g_per_lsb;
f32 modelled exactly in Rat (the factors are dyadic rationals and the
product of a 16-bit integer with 2^-k is exact in f32). -/
def ADXL343Interface.axis_value {ε : Type} (self : ADXL343Interface ε)
    (accel_data : Int) : ℚ × ADXL343Interface ε :=
  ((accel_data : ℚ) * self.settings.g_per_lsb, self)

/-- adxl343_interface.rs, fn read_accel: reads a full sample, splits it
into the three byte pairs [0,1], [2,3], [4,5] (the as_chunks call, here
by index — the sample list always has 6 bytes), decodes each with
axis_value_raw and converts each with axis_value; a failing sample read
returns early with the error. -/
def ADXL343Interface.read_accel {ε : Type} (self : ADXL343Interface ε) :
    Except (ADXL343Error ε) (ℚ × ℚ × ℚ) × ADXL343Interface ε :=
  match self.read_full_sample with
  | (Except.error e, self1) => (Except.error e, self1)
  | (Except.ok binding, self1) =>
      let b : Nat → Fin 256 := fun i => binding.getD i ⟨0, by omega⟩
      let (x_raw, self2) := self1.axis_value_raw (b 0, b 1)
      let (y_raw, self3) := self2.axis_value_raw (b 2, b 3)
      let (z_raw, self4) := self3.axis_value_raw (b 4, b 5)
      let (x, self5) := self4.axis_value x_raw
      let (y, self6) := self5.axis_value y_raw
      let (z, self7) := self6.axis_value z_raw
      (Except.ok (x, y, z), self7)

/-- Number of write transactions in a bus log. -/
def countWrites : List BusOp → Nat
  | [] => 0
  | BusOp.write _ _ :: rest => countWrites rest + 1
  | BusOp.writeRead _ _ _ :: rest => countWrites rest

/-- A concrete bus model whose transactions always succeed; used to
instantiate the driver where only pure computation is exercised. -/
def trivialBus : MockI2c Unit :=
  { onWrite := fun _ _ _ => Except.ok ()
    onWriteRead := fun _ _ _ _ => Except.ok []
    log := [] }

/-- The raw-axis decode of a byte pair under given settings, obtained by
running fn axis_value_raw on a driver holding those settings. -/
def rawAxisOf (s : ADXL343Settings) (d : Fin 256 × Fin 256) : Int :=
  (ADXL343Interface.axis_value_raw { i2c := trivialBus, settings := s } d).1

/-- The decode as a function of the only settings fields fn
axis_value_raw reads: resolution, range and justification. -/
def rawAxisFormula (res : FullRes) (range : AccelRange) (j : Alignment)
    (d : Fin 256 × Fin 256) : Int :=
  rawAxisOf
    { odr := .Hz100, range := range, justification := j, resolution := res
      low_power_mode := false, measurement_mode := false } d

theorem rawAxisOf_eq_formula (s : ADXL343Settings) (d : Fin 256 × Fin 256) :
    rawAxisOf s d = rawAxisFormula s.resolution s.range s.justification d := rfl

/-- The unsigned n-bit two-s complement pattern of a signed value. -/
def twosComplement (n : Nat) (v : Int) : Nat :=
  (v % ((2 ^ n : Nat) : Int)).toNat

/-- Modelled from the spec: the 16-bit word the device produces for a
reading v at n-bit resolution in left-justified mode — the meaningful
bits occupy the high end of the 16-bit container (spec glossary), so the
n-bit pattern is shifted up by 16 - n. -/
def encodeLeft (n : Nat) (v : Int) : Nat :=
  twosComplement n v <<< (16 - n)

/-- Modelled from the spec: the 16-bit word the device produces for a
reading v at n-bit resolution in right-justified mode — the significant
bits start at bit 0 (spec section 4.4) and the upper bits follow the
device's two-s complement sign extension, i.e. the word is the 16-bit
pattern of v. -/
def encodeRight (_n : Nat) (v : Int) : Nat :=
  twosComplement 16 v

/-- Split a 16-bit word into the device byte order [low byte, high
byte]. -/
def wordBytes (w : Nat) : Fin 256 × Fin 256 :=
  (⟨w % 256, by omega⟩, ⟨w / 256 % 256, by omega⟩)

/-- Full-resolution, 16g, left-justified settings (the configuration of
the crate's own bits_to_f32_pipeline_test). -/
def s16L : ADXL343Settings :=
  { ADXL343Settings.default with
      range := ._16g, justification := .left, resolution := .full_res }

/-- Full-resolution, 16g, right-justified settings. -/
def s16R : ADXL343Settings :=
  { ADXL343Settings.default with
      range := ._16g, justification := .right, resolution := .full_res }

/-- Written from the spec's words (section 4.4, steps 1 to 4): combine
the pair into the word high * 256 + low; if right-aligned, left-shift by
6 (times 64 mod 2^16); reinterpret as signed 16-bit; arithmetic right
shift by 16 minus the resolution bits.  Compared against the source
translation in the C2 theorem. -/
def spec_raw_axis (s : ADXL343Settings) (lo hi : Fin 256) : Int :=
  let word : Nat := hi.val * 256 + lo.val
  let word2 : Nat :=
    if s.get_justification = Alignment.right then (word * 64) % 65536 else word
  Int.fdiv (toI16 word2) (2 ^ (16 - s.resolution_to_bits))

theorem lor_bytes (lo hi : Fin 256) :
    ((hi.val <<< 8) ||| lo.val) = hi.val * 256 + lo.val := by
  have h : 2 ^ 8 * hi.val + lo.val = 2 ^ 8 * hi.val ||| lo.val :=
    Nat.mul_add_lt_is_or lo.isLt hi.val
  rw [Nat.shiftLeft_eq, Nat.mul_comm hi.val (2 ^ 8), ← h, Nat.mul_comm (2 ^ 8) hi.val]

theorem lor_bytes256 (lo hi : Fin 256) :
    ((hi.val * 256) ||| lo.val) = hi.val * 256 + lo.val := by
  have h : 2 ^ 8 * hi.val + lo.val = 2 ^ 8 * hi.val ||| lo.val :=
    Nat.mul_add_lt_is_or lo.isLt hi.val
  rw [Nat.mul_comm hi.val 256]
  exact h.symm

/-- Claim C6: resolution_to_bits returns 10 whenever the resolution is
fixed 10-bit, regardless of range, and under full resolution returns
10, 11, 12, 13 for the ranges 2g, 4g, 8g, 16g respectively. -/
theorem claim_C6 (s : ADXL343Settings) :
    s.resolution_to_bits =
      (if s.resolution = FullRes._10bit_res then 10
       else
         match s.range with
         | AccelRange._2g => 10
         | AccelRange._4g => 11
         | AccelRange._8g => 12
         | AccelRange._16g => 13) := by
  rcases s with ⟨odr, range, j, res, lp, mm⟩
  cases res <;> cases range <;> rfl

/-- Claim C7: g_per_lsb returns exactly 1/256 whenever the resolution is
full resolution, for every range; under fixed 10-bit resolution it
returns 1/256, 1/128, 1/64, 1/32 for the ranges 2g, 4g, 8g, 16g
respectively (f32 modelled exactly in Rat: all values are dyadic). -/
theorem claim_C7 (s : ADXL343Settings) :
    s.g_per_lsb =
      (if s.resolution = FullRes.full_res then (1/256 : ℚ)
       else
         match s.range with
         | AccelRange._2g => (1/256 : ℚ)
         | AccelRange._4g => (1/128 : ℚ)
         | AccelRange._8g => (1/64 : ℚ)
         | AccelRange._16g => (1/32 : ℚ)) := by
  rcases s with ⟨odr, range, j, res, lp, mm⟩
  cases res <;> cases range <;> rfl

/-- Claim C9: the default-constructed settings are 100 Hz, 2g range,
right-justified, 10-bit resolution, low power off, not measuring — the
settings a driver created by new(bus) holds — and they yield the
register bytes BW_RATE = 0b00001010, DATA_FORMAT = 0b00000000 and
POWER_CTL = 0b00000000. -/
theorem claim_C9 :
    ADXL343Settings.default =
      { odr := OutputDataRate.Hz100, range := AccelRange._2g,
        justification := Alignment.right, resolution := FullRes._10bit_res,
        low_power_mode := false, measurement_mode := false }
    ∧ ADXL343Settings.default.BW_RATE_reg_value = 0b00001010
    ∧ ADXL343Settings.default.DATA_FORMAT_reg_value = 0b00000000
    ∧ POWER_CTL_bytes 0 = 0b00000000
    ∧ ∀ (ε : Type) (b : MockI2c ε),
        (ADXL343Interface.new b).settings = ADXL343Settings.default :=
  ⟨rfl, by decide, by decide, by decide, fun _ _ => rfl⟩

/-- Claim C4: with_settings on a settings value in measurement mode
fails with MeasurementModeBeforeConfig and leaves the driver (settings
snapshot included) unchanged; on a settings value not in measurement
mode it succeeds and replaces the snapshot; in both cases the bus is
untouched. -/
theorem claim_C4 (ε : Type) (iface : ADXL343Interface ε) (s : ADXL343Settings) :
    (if s.measurement_mode then
       iface.with_settings s =
         (Except.error ADXL343Error.MeasurementModeBeforeConfig, iface)
     else
       iface.with_settings s = (Except.ok (), { iface with settings := s }))
    ∧ (iface.with_settings s).2.i2c = iface.i2c := by
  by_cases h : s.measurement_mode = true
  · simp [ADXL343Interface.with_settings, ADXL343Settings.in_measurement_mode, h]
  · simp only [Bool.not_eq_true] at h
    simp [ADXL343Interface.with_settings, ADXL343Settings.in_measurement_mode, h]

/-- Claim C2: for every byte pair and every settings value,
axis_value_raw computes exactly the spec formula — combine the pair into
high * 256 + low, left-shift by 6 (mod 2^16) exactly when the
justification is right, reinterpret as signed 16-bit and
arithmetic-right-shift by 16 minus the resolution bits — and it is
deterministic and leaves the driver, bus log included, unchanged. -/
theorem claim_C2 (ε : Type) (iface : ADXL343Interface ε) (d : Fin 256 × Fin 256) :
    iface.axis_value_raw d = (spec_raw_axis iface.settings d.1 d.2, iface) := by
  rcases d with ⟨lo, hi⟩
  by_cases h : iface.settings.get_justification = Alignment.right
  · simp only [ADXL343Interface.axis_value_raw, spec_raw_axis, h, if_true, REGISTER_SIZE,
      lor_bytes, Nat.shiftLeft_eq]
    norm_num [lor_bytes256]
  · simp only [ADXL343Interface.axis_value_raw, spec_raw_axis, h, if_false, REGISTER_SIZE,
      lor_bytes]

theorem countWrites_append (l1 l2 : List BusOp) :
    countWrites (l1 ++ l2) = countWrites l1 + countWrites l2 := by
  induction l1 with
  | nil => simp [countWrites]
  | cons x rest ih =>
      cases x
      · simp [countWrites, ih]
        omega
      · simp [countWrites, ih]

theorem begin_measurements_of_not_measuring {ε : Type} (iface : ADXL343Interface ε)
    (h : iface.settings.measurement_mode = false) :
    iface.begin_measurements =
      ((match iface.i2c.onWrite iface.i2c.log ADXL343_ADDR
            [POWER_CTL_ADDR, POWER_CTL_bytes 0x1] with
        | Except.ok _ => Except.ok ()
        | Except.error e => Except.error (ADXL343Error.Interface e)),
       { iface with
           settings := iface.settings.toggle_measurement_mode,
           i2c := { iface.i2c with
             log := iface.i2c.log ++
               [BusOp.write ADXL343_ADDR [POWER_CTL_ADDR, POWER_CTL_bytes 0x1]] } }) := by
  unfold ADXL343Interface.begin_measurements ADXL343Interface.write_to_register
    MockI2c.write ADXL343Settings.in_measurement_mode
  rw [h]
  cases iface.i2c.onWrite iface.i2c.log ADXL343_ADDR
      [POWER_CTL_ADDR, POWER_CTL_bytes 0x1] <;> rfl

theorem begin_measurements_of_measuring {ε : Type} (iface : ADXL343Interface ε)
    (h : iface.settings.measurement_mode = true) :
    iface.begin_measurements = (Except.ok (), iface) := by
  unfold ADXL343Interface.begin_measurements ADXL343Settings.in_measurement_mode
  rw [h]
  rfl

theorem turn_off_measurements_of_measuring {ε : Type} (iface : ADXL343Interface ε)
    (h : iface.settings.measurement_mode = true) :
    iface.turn_off_measurements =
      ((match iface.i2c.onWrite iface.i2c.log ADXL343_ADDR
            [POWER_CTL_ADDR, POWER_CTL_bytes 0x0] with
        | Except.ok _ => Except.ok ()
        | Except.error e => Except.error (ADXL343Error.Interface e)),
       { iface with
           settings := iface.settings.toggle_measurement_mode,
           i2c := { iface.i2c with
             log := iface.i2c.log ++
               [BusOp.write ADXL343_ADDR [POWER_CTL_ADDR, POWER_CTL_bytes 0x0]] } }) := by
  unfold ADXL343Interface.turn_off_measurements ADXL343Interface.write_to_register
    MockI2c.write ADXL343Settings.in_measurement_mode
  rw [h]
  cases iface.i2c.onWrite iface.i2c.log ADXL343_ADDR
      [POWER_CTL_ADDR, POWER_CTL_bytes 0x0] <;> rfl

theorem turn_off_measurements_of_not_measuring {ε : Type} (iface : ADXL343Interface ε)
    (h : iface.settings.measurement_mode = false) :
    iface.turn_off_measurements = (Except.ok (), iface) := by
  unfold ADXL343Interface.turn_off_measurements ADXL343Settings.in_measurement_mode
  rw [h]
  rfl

/-- Claim C3: confirm_device performs exactly one bus transaction, a
read of the device-ID register at address 0x00, and succeeds if and only
if the byte the bus returned equals the device-ID constant 0xE5,
failing with DeviceIdMismatch on every other byte. -/
theorem claim_C3 (ε : Type) (iface : ADXL343Interface ε) (b : Nat)
    (h : iface.i2c.onWriteRead iface.i2c.log ADXL343_ADDR [DEVID_ADDR] 1 = Except.ok [b]) :
    ADXL343Interface.confirm_device iface =
      ((if b = DEVID_REG_VALUE then Except.ok ()
        else Except.error ADXL343Error.DeviceIdMismatch),
       { iface with i2c := { iface.i2c with
           log := iface.i2c.log ++ [BusOp.writeRead ADXL343_ADDR [DEVID_ADDR] 1] } })
    ∧ DEVID_ADDR = 0x00 ∧ DEVID_REG_VALUE = 0xE5 := by
  refine ⟨?_, rfl, rfl⟩
  unfold ADXL343Interface.confirm_device ADXL343Interface.read_register MockI2c.write_read
  rw [h]
  by_cases hb : b = DEVID_REG_VALUE <;> simp [hb]

/-- Claim C5 (amended): starting from a driver that is not measuring,
calling begin_measurements twice performs exactly one bus write, of the
POWER_CTL byte with only the measurement bit (bit 3) set, and the second
call is a complete no-op; symmetrically, starting from a driver that is
measuring, calling turn_off_measurements twice performs exactly one bus
write and the second call is a no-op. -/
theorem claim_C5 (ε : Type) (iface : ADXL343Interface ε) :
    (iface.settings.measurement_mode = false →
      (((iface.begin_measurements).2).begin_measurements).2.i2c.log
          = iface.i2c.log ++ [BusOp.write ADXL343_ADDR [POWER_CTL_ADDR, POWER_CTL_bytes 0x1]]
      ∧ countWrites ((((iface.begin_measurements).2).begin_measurements).2.i2c.log)
          = countWrites iface.i2c.log + 1
      ∧ ((iface.begin_measurements).2).begin_measurements
          = (Except.ok (), (iface.begin_measurements).2)
      ∧ POWER_CTL_bytes 0x1 = 0b00001000)
    ∧ (iface.settings.measurement_mode = true →
      (((iface.turn_off_measurements).2).turn_off_measurements).2.i2c.log
          = iface.i2c.log ++ [BusOp.write ADXL343_ADDR [POWER_CTL_ADDR, POWER_CTL_bytes 0x0]]
      ∧ countWrites ((((iface.turn_off_measurements).2).turn_off_measurements).2.i2c.log)
          = countWrites iface.i2c.log + 1
      ∧ ((iface.turn_off_measurements).2).turn_off_measurements
          = (Except.ok (), (iface.turn_off_measurements).2)
      ∧ POWER_CTL_bytes 0x0 = 0b00000000) := by
  constructor
  · intro h
    have h1 := begin_measurements_of_not_measuring iface h
    have h2 : (iface.begin_measurements).2.settings.measurement_mode = true := by
      rw [h1]
      simp [ADXL343Settings.toggle_measurement_mode, h]
    have h3 := begin_measurements_of_measuring (iface.begin_measurements).2 h2
    refine ⟨?_, ?_, h3, by decide⟩
    · rw [h3, h1]
    · rw [h3, h1]
      simp [countWrites_append, countWrites]
  · intro h
    have h1 := turn_off_measurements_of_measuring iface h
    have h2 : (iface.turn_off_measurements).2.settings.measurement_mode = false := by
      rw [h1]
      simp [ADXL343Settings.toggle_measurement_mode, h]
    have h3 := turn_off_measurements_of_not_measuring (iface.turn_off_measurements).2 h2
    refine ⟨?_, ?_, h3, by decide⟩
    · rw [h3, h1]
    · rw [h3, h1]
      simp [countWrites_append, countWrites]

/-- A driver that is already in measurement mode, over an
always-succeeding bus with an empty log. -/
def ifaceOn : ADXL343Interface Unit :=
  { i2c := trivialBus,
    settings := { ADXL343Settings.default with measurement_mode := true } }

/-- A driver that is not in measurement mode, over an always-succeeding
bus with an empty log (the state new(bus) produces). -/
def ifaceOff : ADXL343Interface Unit :=
  ADXL343Interface.new trivialBus

/-- Claim C5, counterexample to the claim as stated: for a driver that
is already measuring, calling begin_measurements twice performs zero bus
writes, not exactly one. -/
theorem claim_C5_counterexample :
    ¬ (countWrites ((((ifaceOn.begin_measurements).2).begin_measurements).2.i2c.log)
        = countWrites ifaceOn.i2c.log + 1) := by decide

/-- Witness for claim C5: the amended theorem applied to a concrete
non-measuring driver and to a concrete measuring driver. -/
theorem claim_C5_witness :
    ((((ifaceOff.begin_measurements).2).begin_measurements).2.i2c.log
        = ifaceOff.i2c.log ++ [BusOp.write ADXL343_ADDR [POWER_CTL_ADDR, POWER_CTL_bytes 0x1]]
      ∧ countWrites ((((ifaceOff.begin_measurements).2).begin_measurements).2.i2c.log)
        = countWrites ifaceOff.i2c.log + 1
      ∧ ((ifaceOff.begin_measurements).2).begin_measurements
        = (Except.ok (), (ifaceOff.begin_measurements).2)
      ∧ POWER_CTL_bytes 0x1 = 0b00001000)
    ∧ ((((ifaceOn.turn_off_measurements).2).turn_off_measurements).2.i2c.log
        = ifaceOn.i2c.log ++ [BusOp.write ADXL343_ADDR [POWER_CTL_ADDR, POWER_CTL_bytes 0x0]]
      ∧ countWrites ((((ifaceOn.turn_off_measurements).2).turn_off_measurements).2.i2c.log)
        = countWrites ifaceOn.i2c.log + 1
      ∧ ((ifaceOn.turn_off_measurements).2).turn_off_measurements
        = (Except.ok (), (ifaceOn.turn_off_measurements).2)
      ∧ POWER_CTL_bytes 0x0 = 0b00000000) :=
  ⟨(claim_C5 Unit ifaceOff).1 rfl, (claim_C5 Unit ifaceOn).2 rfl⟩

/-- Claim C10: begin_measurements toggles the in-memory flag before the
fallible POWER_CTL write: when the write fails, the bus error is
returned while the settings already show measurement mode on, the failed
write is on the log, and a second begin_measurements call is a no-op —
the write is never retried. -/
theorem claim_C10 (ε : Type) (iface : ADXL343Interface ε) (e : ε)
    (h : iface.settings.measurement_mode = false)
    (hw : iface.i2c.onWrite iface.i2c.log ADXL343_ADDR
        [POWER_CTL_ADDR, POWER_CTL_bytes 0x1] = Except.error e) :
    (iface.begin_measurements).1 = Except.error (ADXL343Error.Interface e)
    ∧ (iface.begin_measurements).2.settings.measurement_mode = true
    ∧ (iface.begin_measurements).2.i2c.log
        = iface.i2c.log ++ [BusOp.write ADXL343_ADDR [POWER_CTL_ADDR, POWER_CTL_bytes 0x1]]
    ∧ ((iface.begin_measurements).2).begin_measurements
        = (Except.ok (), (iface.begin_measurements).2) := by
  have h1 := begin_measurements_of_not_measuring iface h
  have h2 : (iface.begin_measurements).2.settings.measurement_mode = true := by
    rw [h1]
    simp [ADXL343Settings.toggle_measurement_mode, h]
  refine ⟨?_, h2, ?_, begin_measurements_of_measuring _ h2⟩
  · rw [h1]
    simp [hw]
  · rw [h1]

/-- A bus whose every transaction fails with error 7, with an empty
log. -/
def failBus : MockI2c Nat :=
  { onWrite := fun _ _ _ => Except.error 7
    onWriteRead := fun _ _ _ _ => Except.error 7
    log := [] }

/-- A non-measuring driver over the always-failing bus. -/
def ifaceFail : ADXL343Interface Nat :=
  { i2c := failBus, settings := ADXL343Settings.default }

/-- A measuring driver over the always-failing bus. -/
def ifaceFailOn : ADXL343Interface Nat :=
  { i2c := failBus,
    settings := { ADXL343Settings.default with measurement_mode := true } }

/-- Witness for claim C10: the theorem applied to a concrete
non-measuring driver whose bus write fails with error 7. -/
theorem claim_C10_witness :
    (ifaceFail.begin_measurements).1 = Except.error (ADXL343Error.Interface 7)
    ∧ (ifaceFail.begin_measurements).2.settings.measurement_mode = true
    ∧ (ifaceFail.begin_measurements).2.i2c.log
        = ifaceFail.i2c.log ++ [BusOp.write ADXL343_ADDR [POWER_CTL_ADDR, POWER_CTL_bytes 0x1]]
    ∧ ((ifaceFail.begin_measurements).2).begin_measurements
        = (Except.ok (), (ifaceFail.begin_measurements).2) :=
  claim_C10 Nat ifaceFail 7 rfl rfl

/-- A bus whose first write succeeds and whose every later transaction
fails with error 9, with an empty log. -/
def secondFailBus : MockI2c Nat :=
  { onWrite := fun log _ _ => if log = [] then Except.ok () else Except.error 9
    onWriteRead := fun _ _ _ _ => Except.error 9
    log := [] }

/-- A fresh driver over the bus whose second write fails. -/
def ifaceInit2 : ADXL343Interface Nat :=
  { i2c := secondFailBus, settings := ADXL343Settings.default }

/-- Claim C8: destroy is infallible by type — it returns the bus handle
and settings pair outright; the settings it returns always have
measurement mode off; when the best-effort stop write fails, the error
turn_off_measurements produced is discarded and destroy still returns
the pair, with the failed write on the returned bus log; and no other
operation silently swallows an error — every fallible operation
(write_to_register, read_register, confirm_device, both writes of init,
read_full_sample, read_accel, begin_measurements, and
turn_off_measurements outside destroy) surfaces a failing bus
transaction as the wrapped bus error. -/
theorem claim_C8 (ε : Type) (iface : ADXL343Interface ε) :
    (ADXL343Interface.destroy iface).2.measurement_mode = false
    ∧ ADXL343Interface.destroy iface
        = ((iface.turn_off_measurements).2.i2c, (iface.turn_off_measurements).2.settings)
    ∧ (∀ e : ε, iface.settings.measurement_mode = true →
        iface.i2c.onWrite iface.i2c.log ADXL343_ADDR
            [POWER_CTL_ADDR, POWER_CTL_bytes 0x0] = Except.error e →
        (iface.turn_off_measurements).1 = Except.error (ADXL343Error.Interface e)
        ∧ ADXL343Interface.destroy iface
            = ({ iface.i2c with log := iface.i2c.log ++
                  [BusOp.write ADXL343_ADDR [POWER_CTL_ADDR, POWER_CTL_bytes 0x0]] },
               { iface.settings with measurement_mode := false }))
    ∧ (∀ (e : ε) (reg v : Nat),
        iface.i2c.onWrite iface.i2c.log ADXL343_ADDR [reg, v] = Except.error e →
        (iface.write_to_register reg v).1 = Except.error (ADXL343Error.Interface e))
    ∧ (∀ (e : ε) (reg : Nat),
        iface.i2c.onWriteRead iface.i2c.log ADXL343_ADDR [reg] 1 = Except.error e →
        (iface.read_register reg).1 = Except.error (ADXL343Error.Interface e))
    ∧ (∀ e : ε,
        iface.i2c.onWriteRead iface.i2c.log ADXL343_ADDR [DEVID_ADDR] 1 = Except.error e →
        (ADXL343Interface.confirm_device iface).1 = Except.error (ADXL343Error.Interface e))
    ∧ (∀ e : ε,
        iface.i2c.onWrite iface.i2c.log ADXL343_ADDR
            [BW_RATE_ADDR, iface.settings.BW_RATE_reg_value] = Except.error e →
        (ADXL343Interface.init iface).1 = Except.error (ADXL343Error.Interface e))
    ∧ (∀ e : ε,
        iface.i2c.onWrite iface.i2c.log ADXL343_ADDR
            [BW_RATE_ADDR, iface.settings.BW_RATE_reg_value] = Except.ok () →
        iface.i2c.onWrite
            (iface.i2c.log ++
              [BusOp.write ADXL343_ADDR [BW_RATE_ADDR, iface.settings.BW_RATE_reg_value]])
            ADXL343_ADDR [DATA_FORMAT_ADDR, iface.settings.DATA_FORMAT_reg_value]
          = Except.error e →
        (ADXL343Interface.init iface).1 = Except.error (ADXL343Error.Interface e))
    ∧ (∀ e : ε,
        iface.i2c.onWriteRead iface.i2c.log ADXL343_ADDR [DATAX0_ADDR] 6 = Except.error e →
        (ADXL343Interface.read_full_sample iface).1 = Except.error (ADXL343Error.Interface e)
        ∧ (ADXL343Interface.read_accel iface).1 = Except.error (ADXL343Error.Interface e))
    ∧ (∀ e : ε, iface.settings.measurement_mode = false →
        iface.i2c.onWrite iface.i2c.log ADXL343_ADDR
            [POWER_CTL_ADDR, POWER_CTL_bytes 0x1] = Except.error e →
        (iface.begin_measurements).1 = Except.error (ADXL343Error.Interface e)) := by
  have hdestroy : ADXL343Interface.destroy iface
      = ((iface.turn_off_measurements).2.i2c, (iface.turn_off_measurements).2.settings) := rfl
  refine ⟨?_, hdestroy, ?_, ?_, ?_, ?_, ?_, ?_, ?_, ?_⟩
  · by_cases hm : iface.settings.measurement_mode = true
    · rw [hdestroy, turn_off_measurements_of_measuring iface hm]
      simp [ADXL343Settings.toggle_measurement_mode, hm]
    · simp only [Bool.not_eq_true] at hm
      rw [hdestroy, turn_off_measurements_of_not_measuring iface hm]
      exact hm
  · intro e hm hw
    have h1 := turn_off_measurements_of_measuring iface hm
    constructor
    · rw [h1]
      simp [hw]
    · rw [hdestroy, h1]
      simp [ADXL343Settings.toggle_measurement_mode, hm]
  · intro e reg v hw
    unfold ADXL343Interface.write_to_register MockI2c.write
    rw [hw]
  · intro e reg hw
    unfold ADXL343Interface.read_register MockI2c.write_read
    rw [hw]
  · intro e hw
    unfold ADXL343Interface.confirm_device ADXL343Interface.read_register MockI2c.write_read
    rw [hw]
  · intro e hw
    unfold ADXL343Interface.init ADXL343Interface.write_to_register MockI2c.write
    rw [hw]
  · intro e h1 h2
    unfold ADXL343Interface.init ADXL343Interface.write_to_register MockI2c.write
    rw [h1]
    dsimp only
    rw [h2]
  · intro e hw
    constructor
    · unfold ADXL343Interface.read_full_sample MockI2c.write_read
      rw [hw]
    · unfold ADXL343Interface.read_accel ADXL343Interface.read_full_sample MockI2c.write_read
      rw [hw]
  · intro e h hw
    rw [begin_measurements_of_not_measuring iface h]
    simp [hw]

/-- Witness for claim C8: the theorem applied to concrete drivers over
failing buses — a measuring driver whose stop write fails with error 7,
a fresh driver whose every transaction fails with error 7, and a fresh
driver whose second write fails with error 9. -/
theorem claim_C8_witness :
    (ADXL343Interface.destroy ifaceFailOn).2.measurement_mode = false
    ∧ (ifaceFailOn.turn_off_measurements).1 = Except.error (ADXL343Error.Interface 7)
    ∧ ADXL343Interface.destroy ifaceFailOn
        = ({ ifaceFailOn.i2c with log := ifaceFailOn.i2c.log ++
              [BusOp.write ADXL343_ADDR [POWER_CTL_ADDR, POWER_CTL_bytes 0x0]] },
           { ifaceFailOn.settings with measurement_mode := false })
    ∧ (ifaceFail.write_to_register 0x2C 0x0A).1 = Except.error (ADXL343Error.Interface 7)
    ∧ (ifaceFail.read_register 0x2C).1 = Except.error (ADXL343Error.Interface 7)
    ∧ (ADXL343Interface.confirm_device ifaceFail).1 = Except.error (ADXL343Error.Interface 7)
    ∧ (ADXL343Interface.init ifaceFail).1 = Except.error (ADXL343Error.Interface 7)
    ∧ (ADXL343Interface.init ifaceInit2).1 = Except.error (ADXL343Error.Interface 9)
    ∧ (ADXL343Interface.read_full_sample ifaceFail).1 = Except.error (ADXL343Error.Interface 7)
    ∧ (ADXL343Interface.read_accel ifaceFail).1 = Except.error (ADXL343Error.Interface 7)
    ∧ (ifaceFail.begin_measurements).1 = Except.error (ADXL343Error.Interface 7) :=
  ⟨(claim_C8 Nat ifaceFailOn).1,
   ((claim_C8 Nat ifaceFailOn).2.2.1 7 rfl rfl).1,
   ((claim_C8 Nat ifaceFailOn).2.2.1 7 rfl rfl).2,
   (claim_C8 Nat ifaceFail).2.2.2.1 7 0x2C 0x0A rfl,
   (claim_C8 Nat ifaceFail).2.2.2.2.1 7 0x2C rfl,
   (claim_C8 Nat ifaceFail).2.2.2.2.2.1 7 rfl,
   (claim_C8 Nat ifaceFail).2.2.2.2.2.2.1 7 rfl,
   (claim_C8 Nat ifaceInit2).2.2.2.2.2.2.2.1 9 rfl rfl,
   ((claim_C8 Nat ifaceFail).2.2.2.2.2.2.2.2.1 7 rfl).1,
   ((claim_C8 Nat ifaceFail).2.2.2.2.2.2.2.2.1 7 rfl).2,
   (claim_C8 Nat ifaceFail).2.2.2.2.2.2.2.2.2 7 rfl rfl⟩

/-- A bus that answers every write-read with the single byte b. -/
def devidBus (b : Nat) : MockI2c Unit :=
  { onWrite := fun _ _ _ => Except.ok ()
    onWriteRead := fun _ _ _ _ => Except.ok [b]
    log := [] }

/-- A fresh driver over a bus whose reads return the byte b. -/
def iface3 (b : Nat) : ADXL343Interface Unit :=
  { i2c := devidBus b, settings := ADXL343Settings.default }

/-- Witness for claim C3: the theorem applied to a concrete driver whose
bus returns the byte 0xE5 for the device-ID read. -/
theorem claim_C3_witness :
    ADXL343Interface.confirm_device (iface3 0xE5) =
      ((if (0xE5 : Nat) = DEVID_REG_VALUE then Except.ok ()
        else Except.error ADXL343Error.DeviceIdMismatch),
       { iface3 0xE5 with i2c := { (iface3 0xE5).i2c with
           log := (iface3 0xE5).i2c.log ++ [BusOp.writeRead ADXL343_ADDR [DEVID_ADDR] 1] } })
    ∧ DEVID_ADDR = 0x00 ∧ DEVID_REG_VALUE = 0xE5 :=
  claim_C3 Unit (iface3 0xE5) 0xE5 rfl

set_option maxRecDepth 100000 in
/-- Claim C1 (amended): justification invariance holds at 10-bit
resolution — for every settings value whose resolution is 10 bits (fixed
10-bit mode at any range, or full resolution at 2g) and every reading in
the signed 10-bit range, decoding the right-justified raw byte pair and
the left-justified raw byte pair the device would produce for that
reading yields the same signed integer, namely the reading itself; and
under full-resolution 16g, the left-justified raw pair for +9g (value
9 * 256 shifted into raw packing) decodes to raw_axis = 2304 with
2304 * g_per_lsb() = 9.0, and the symmetric -9g pattern decodes to
-2304, converting to -9.0. -/
theorem claim_C1 (s : ADXL343Settings) (h : s.resolution_to_bits = 10) :
    (∀ v : Fin 1024,
      rawAxisOf { s with justification := Alignment.right }
          (wordBytes (encodeRight 10 (Int.ofNat v.val - 512))) = Int.ofNat v.val - 512
      ∧ rawAxisOf { s with justification := Alignment.left }
          (wordBytes (encodeLeft 10 (Int.ofNat v.val - 512))) = Int.ofNat v.val - 512)
    ∧ rawAxisOf s16L (wordBytes ((9 * 256) <<< 3)) = 2304
    ∧ (2304 : ℚ) * ADXL343Settings.g_per_lsb s16L = 9
    ∧ rawAxisOf s16L (wordBytes (0b1011100000000 <<< 3)) = -2304
    ∧ (-2304 : ℚ) * ADXL343Settings.g_per_lsb s16L = -9 := by
  refine ⟨?_, by decide,
    by norm_num [ADXL343Settings.g_per_lsb, s16L, ADXL343Settings.default], by decide,
    by norm_num [ADXL343Settings.g_per_lsb, s16L, ADXL343Settings.default]⟩
  rcases s with ⟨odr, range, j, res, lp, mm⟩
  cases res <;> cases range <;>
    first
    | (simp only [ADXL343Settings.resolution_to_bits] at h
       exact absurd h (by decide))
    | (simp only [rawAxisOf_eq_formula]
       decide)

/-- Claim C1, counterexample to the claim as stated: under
full-resolution 16g, the left-justified raw pair for +9g decodes to
2304, not 1152; 1152 LSB converts to 4.5 g, not 9.0; and the
right-justified and left-justified encodings of the 13-bit reading 1152
decode to different signed integers (1024 versus 1152), so justification
invariance fails at the configured resolution. -/
theorem claim_C1_counterexample :
    rawAxisOf s16L (wordBytes ((9 * 256) <<< 3)) ≠ 1152
    ∧ (1152 : ℚ) * ADXL343Settings.g_per_lsb s16L ≠ 9
    ∧ rawAxisOf s16R (wordBytes (encodeRight 13 1152)) ≠
        rawAxisOf s16L (wordBytes (encodeLeft 13 1152)) := by
  refine ⟨by decide, ?_, by decide⟩
  norm_num [ADXL343Settings.g_per_lsb, s16L, ADXL343Settings.default]

/-- Witness for claim C1: the amended theorem applied to the default
settings (10-bit resolution) and the concrete reading 100 (v = 612). -/
theorem claim_C1_witness :
    ADXL343Settings.default.resolution_to_bits = 10
    ∧ (rawAxisOf { ADXL343Settings.default with justification := Alignment.right }
          (wordBytes (encodeRight 10 (Int.ofNat (612 : Fin 1024).val - 512)))
        = Int.ofNat (612 : Fin 1024).val - 512
      ∧ rawAxisOf { ADXL343Settings.default with justification := Alignment.left }
          (wordBytes (encodeLeft 10 (Int.ofNat (612 : Fin 1024).val - 512)))
        = Int.ofNat (612 : Fin 1024).val - 512) :=
  ⟨rfl, (claim_C1 ADXL343Settings.default rfl).1 612⟩

end adxl343
